import Mathlib

/-!
Verification development for the azurejay conversational-agent backend.

The definitions below are shallow embeddings of the orchestration core:
the routing functions and graph wiring of the primary tutor graph
(src/agent/graph.py), the reduced agent graph (src/agent/agent_graph.py),
the swarm routers and handoff tools (teste/swarm), the reflection loop
(teste/openevals-main.py), the Redis-backed memory of src/agent/service.py,
and the grammar checker (src/agent/grammar.py).  External capabilities
(language model completions, extractors, search, spellcheckers, the
LanguageTool HTTP API, regex substitution) are modelled as explicit
function parameters (capability ports); everything the repository itself
computes over their results is translated directly.
-/

/-- The langgraph END sentinel; routing functions return it to stop the turn. -/
def END_NODE : String := "__end__"

/-- The langgraph START sentinel used in edge definitions. -/
def START_NODE : String := "__start__"

/-- One tool-call request attached to an assistant message.  `args` is the
tool_call dict entry for the "args" key: `none` models a tool_call with no
"args" key at all, `some a` models an args dict, embedded as an association
list from argument names to (string) values. -/
structure ToolCall where
  name : String
  args : Option (List (String × String))
  id : String
deriving DecidableEq

/-- Look an argument up in the args dict of a tool call, as Python's
`tool_call["args"].get(key)`; `none` when the args key or the argument is
missing. -/
def ToolCall.arg (tc : ToolCall) (k : String) : Option String :=
  tc.args.bind (fun a => a.lookup k)

/-- Conversation messages as the embedding needs them: user text, assistant
text with attached tool calls, tool results (content, optional tool name,
tool_call_id), and system prompts. -/
inductive Message where
  | human (content : String)
  | ai (content : String) (toolCalls : List ToolCall)
  | tool (content : String) (name : Option String) (toolCallId : String)
  | system (content : String)
deriving DecidableEq

/-- route_message (src/agent/graph.py): the conditional edge evaluated after
the ai_language_tutor node.  Takes the tool calls of the latest message
(an absent tool_calls attribute or an empty list both route to END), then
inspects the first tool call: a missing "args" key routes to END, otherwise
the declared update_type is matched exactly against the four known values,
with anything else routed to END.  Every operation of the source body is
total here, matching the fact that the source wraps the dispatch in a
try/except that also returns END, so the function never raises. -/
def route_message (lastToolCalls : List ToolCall) : String :=
  match lastToolCalls with
  | [] => END_NODE
  | tc :: _ =>
    match tc.args with
    | none => END_NODE
    | some args =>
      match args.lookup "update_type" with
      | some u =>
        if u = "profile" then "update_profile"
        else if u = "topic" then "update_topic"
        else if u = "grammar" then "update_grammar"
        else if u = "web_search" then "web_search_api"
        else END_NODE
      | none => END_NODE

/-- route_action (src/agent/agent_graph.py): the conditional edge of the
reduced agent graph.  An empty tool-call list routes to END; otherwise the
source reads tool_call["args"]["update_type"] unguarded, so a first tool
call whose args dict is absent or lacks update_type raises a KeyError that
nothing catches — modelled as Except.error.  A present update_type maps
"profile" to update_profile and everything else to END (logged). -/
def route_action (lastToolCalls : List ToolCall) : Except String String :=
  match lastToolCalls with
  | [] => Except.ok END_NODE
  | tc :: _ =>
    match tc.arg "update_type" with
    | none => Except.error "KeyError"
    | some u =>
      if u = "profile" then Except.ok "update_profile"
      else Except.ok END_NODE

/-- C1. The router after the primary node returns END with no tool calls and
otherwise dispatches the first tool call by exact match on update_type:
profile, topic, grammar and web_search go to the corresponding nodes. -/
theorem route_message_dispatch (tc : ToolCall) (rest : List ToolCall)
    (a : List (String × String)) :
    route_message [] = END_NODE
    ∧ (tc.args = some a →
        ((a.lookup "update_type" = some "profile" →
            route_message (tc :: rest) = "update_profile")
        ∧ (a.lookup "update_type" = some "topic" →
            route_message (tc :: rest) = "update_topic")
        ∧ (a.lookup "update_type" = some "grammar" →
            route_message (tc :: rest) = "update_grammar")
        ∧ (a.lookup "update_type" = some "web_search" →
            route_message (tc :: rest) = "web_search_api"))) := by
  refine ⟨rfl, fun h => ⟨?_, ?_, ?_, ?_⟩⟩ <;>
    intro hu <;> simp [route_message, h, hu]

/-- C1 witness: a concrete profile tool call is routed to update_profile. -/
theorem route_message_dispatch_witness :
    (⟨"UpdateMemory", some [("update_type", "profile")], "c1"⟩ : ToolCall).args
        = some [("update_type", "profile")]
    ∧ [("update_type", "profile")].lookup "update_type" = some "profile"
    ∧ route_message [⟨"UpdateMemory", some [("update_type", "profile")], "c1"⟩]
        = "update_profile" :=
  ⟨rfl, by decide,
    ((route_message_dispatch
        ⟨"UpdateMemory", some [("update_type", "profile")], "c1"⟩ []
        [("update_type", "profile")]).2 rfl).1 (by decide)⟩

/-- C3 counterexample: a tool call with no args dict makes route_action
(src/agent/agent_graph.py) raise a KeyError instead of returning END, so
the claim that every routing function fail-opens on malformed tool calls
is false at this input. -/
theorem route_action_raises_on_missing_args :
    route_action [⟨"UpdateMemory", none, "c1"⟩] = Except.error "KeyError" := rfl

/-- C3 amended: route_message (src/agent/graph.py) returns END, without
raising, on every malformed first tool call (missing args, missing
update_type, or an unknown value); route_action (src/agent/agent_graph.py)
fail-opens on an empty tool-call list and on unknown update_type values
but raises a KeyError when args or update_type is missing. -/
theorem routing_fail_open (tc : ToolCall) (rest : List ToolCall)
    (a : List (String × String)) (u : String) :
    (tc.args = none → route_message (tc :: rest) = END_NODE)
    ∧ (tc.args = some a → a.lookup "update_type" = none →
        route_message (tc :: rest) = END_NODE)
    ∧ (tc.args = some a → a.lookup "update_type" = some u →
        u ≠ "profile" → u ≠ "topic" → u ≠ "grammar" → u ≠ "web_search" →
        route_message (tc :: rest) = END_NODE)
    ∧ route_action [] = Except.ok END_NODE
    ∧ (tc.arg "update_type" = some u → u ≠ "profile" →
        route_action (tc :: rest) = Except.ok END_NODE)
    ∧ (tc.arg "update_type" = none →
        route_action (tc :: rest) = Except.error "KeyError") := by
  refine ⟨fun h => ?_, fun h h2 => ?_, fun h h2 h3 h4 h5 h6 => ?_, rfl,
      fun h h2 => ?_, fun h => ?_⟩
  · simp [route_message, h]
  · simp [route_message, h, h2]
  · simp [route_message, h, h2, h3, h4, h5, h6]
  · simp [route_action, h, h2]
  · simp [route_action, h]

/-- C3 witness: an unknown update_type value routes to END in both routers. -/
theorem routing_fail_open_witness :
    (⟨"UpdateMemory", some [("update_type", "mystery")], "c2"⟩ : ToolCall).args
        = some [("update_type", "mystery")]
    ∧ [("update_type", "mystery")].lookup "update_type" = some "mystery"
    ∧ route_message [⟨"UpdateMemory", some [("update_type", "mystery")], "c2"⟩]
        = END_NODE
    ∧ route_action [⟨"UpdateMemory", some [("update_type", "mystery")], "c2"⟩]
        = Except.ok END_NODE :=
  ⟨rfl, by decide,
    (routing_fail_open ⟨"UpdateMemory", some [("update_type", "mystery")], "c2"⟩
        [] [("update_type", "mystery")] "mystery").2.2.1 rfl (by decide)
      (by decide) (by decide) (by decide) (by decide),
    (routing_fail_open ⟨"UpdateMemory", some [("update_type", "mystery")], "c2"⟩
        [] [("update_type", "mystery")] "mystery").2.2.2.2.1 (by decide)
      (by decide)⟩

/-- Unconditional edges added by setup_and_run_graph (src/agent/graph.py):
START feeds the primary node and every extractor node returns to it. -/
def tutorGraphEdges : List (String × String) :=
  [(START_NODE, "ai_language_tutor"),
   ("update_topic", "ai_language_tutor"),
   ("update_profile", "ai_language_tutor"),
   ("update_grammar", "ai_language_tutor"),
   ("web_search_api", "ai_language_tutor")]

/-- Sources of conditional edges in the compiled tutor graph: only the
primary node routes conditionally (through route_message). -/
def tutorConditionalEdgeSources : List String := ["ai_language_tutor"]

/-- The extractor/tool nodes of the compiled tutor graph. -/
def extractorNodes : List String :=
  ["update_topic", "update_profile", "update_grammar", "web_search_api"]

/-- C4. Every extractor node of the compiled tutor graph has an
unconditional edge back to ai_language_tutor, all of its outgoing edges
target ai_language_tutor (in particular none targets END), and no
extractor node carries conditional routing, so only the primary node can
end the turn. -/
theorem extractors_never_terminal :
    extractorNodes.all (fun n =>
      tutorGraphEdges.contains (n, "ai_language_tutor")
      && tutorGraphEdges.all (fun e => !(e.1 == n) || e.2 == "ai_language_tutor")
      && !(tutorGraphEdges.contains (n, END_NODE))
      && !(tutorConditionalEdgeSources.contains n)) = true := by decide

/-- The retry cap of the reflection loop (teste/openevals-main.py). -/
def MAX_CORRECTION_RETRIES : Nat := 3

/-- reflect (teste/openevals-main.py): with the original user message and a
latest assistant response both present, the helpfulness evaluator scores
the response; a corrective user message is injected exactly when the score
is negative and the number of attempted corrections recorded so far is
strictly below MAX_CORRECTION_RETRIES.  Returns whether the corrective
message is injected. -/
def reflect (score : Bool) (attemptedCorrections : Nat) : Bool :=
  !score && decide (attemptedCorrections < MAX_CORRECTION_RETRIES)

/-- after_reflect (teste/openevals-main.py): loop back to the tutor node
when reflect just injected a human message, otherwise END the flow. -/
def after_reflect (lastMessageIsHuman : Bool) : String :=
  if lastMessageIsHuman then "tutor" else END_NODE

/-- Executor run of the always-negative-evaluator scenario of the
reflection graph (teste/openevals-main.py): the tutor node is entered on a
human message and answers with plain text and no tool calls, so call_model
appends one attempted correction per invocation, route_tools sends control
to reflect, and after_reflect either loops to the tutor or ends the flow.
`gen n` is the text of the n-th tutor response; the result is
`some (totalTutorInvocations, finalResponse)` when the run reaches END
within `fuel` loop iterations, `none` otherwise. -/
def scenarioAlwaysNegative (gen : Nat → String) :
    Nat → Nat → Nat → Option (Nat × String)
  | 0, _, _ => none
  | fuel + 1, attempted, invocations =>
    let invocations2 := invocations + 1
    let attempted2 := attempted + 1
    if after_reflect (reflect false attempted2) = "tutor" then
      scenarioAlwaysNegative gen fuel attempted2 invocations2
    else
      some (invocations2, gen invocations2)

/-- C2. With an evaluator that always scores negative, reflect injects a
corrective message exactly while the attempted-correction count is below
MAX_CORRECTION_RETRIES, so the tutor node runs exactly
MAX_CORRECTION_RETRIES times and the run then reaches END as a normal
outcome carrying the last generated response; when reflect does not
inject, after_reflect routes to END. -/
theorem reflection_loop_bounded (gen : Nat → String) (a : Nat) :
    scenarioAlwaysNegative gen (MAX_CORRECTION_RETRIES + 1) 0 0
      = some (MAX_CORRECTION_RETRIES, gen MAX_CORRECTION_RETRIES)
    ∧ (reflect false a = true ↔ a < MAX_CORRECTION_RETRIES)
    ∧ after_reflect false = END_NODE := by
  refine ⟨rfl, ?_, rfl⟩
  simp [reflect]

/-- The Command value a custom handoff tool returns
(teste/swarm/custom_handoff_tools.py): target node, the messages written
into the parent state, and the active_agent field of that update. -/
structure AgentCommand where
  goto : String
  update_messages : List Message
  update_active_agent : String
deriving DecidableEq

/-- handoff_to_profile (teste/swarm/custom_handoff_tools.py): builds a
ToolMessage marking the transfer and returns a Command to the parent graph
whose update carries the current messages plus that marker and sets
active_agent to the target agent.  agentName is the factory keyword
argument (default "Profile"). -/
def handoff_to_profile (agentName reason : String) (stateMessages : List Message)
    (toolCallId : String) : AgentCommand :=
  { goto := agentName
    update_messages := stateMessages ++
      [Message.tool ("Successfully transferred to " ++ agentName ++ " - " ++ reason)
        (some "transfer_to_profile") toolCallId]
    update_active_agent := agentName }

/-- handoff_to_correction (teste/swarm/custom_handoff_tools.py): same shape
as handoff_to_profile with tool name transfer_to_correction_agent and
default target "Correction". -/
def handoff_to_correction (agentName reason : String) (stateMessages : List Message)
    (toolCallId : String) : AgentCommand :=
  { goto := agentName
    update_messages := stateMessages ++
      [Message.tool ("Successfully transferred to " ++ agentName ++ " - " ++ reason)
        (some "transfer_to_correction_agent") toolCallId]
    update_active_agent := agentName }

/-- C5. Each handoff tool returns a Command whose message update is the
pre-handoff message list unchanged (prefix-preserving) plus exactly one
appended marker ToolMessage recording the target agent and the reason, and
whose update sets active_agent to the target agent. -/
theorem handoff_marker_invariant (agentName reason toolCallId : String)
    (msgs : List Message) :
    (handoff_to_profile agentName reason msgs toolCallId).update_messages
      = msgs ++ [Message.tool
          ("Successfully transferred to " ++ agentName ++ " - " ++ reason)
          (some "transfer_to_profile") toolCallId]
    ∧ (handoff_to_profile agentName reason msgs toolCallId).update_messages.take
        msgs.length = msgs
    ∧ (handoff_to_profile agentName reason msgs toolCallId).update_messages.length
        = msgs.length + 1
    ∧ (handoff_to_profile agentName reason msgs toolCallId).update_active_agent
        = agentName
    ∧ (handoff_to_profile agentName reason msgs toolCallId).goto = agentName
    ∧ (handoff_to_correction agentName reason msgs toolCallId).update_messages
      = msgs ++ [Message.tool
          ("Successfully transferred to " ++ agentName ++ " - " ++ reason)
          (some "transfer_to_correction_agent") toolCallId]
    ∧ (handoff_to_correction agentName reason msgs toolCallId).update_messages.take
        msgs.length = msgs
    ∧ (handoff_to_correction agentName reason msgs toolCallId).update_messages.length
        = msgs.length + 1
    ∧ (handoff_to_correction agentName reason msgs toolCallId).update_active_agent
        = agentName
    ∧ (handoff_to_correction agentName reason msgs toolCallId).goto = agentName := by
  refine ⟨rfl, ?_, ?_, rfl, rfl, rfl, ?_, ?_, rfl, rfl⟩ <;>
    simp [handoff_to_profile, handoff_to_correction, List.take_left]

/-- Flag-collection loop shared by the swarm routers
(teste/swarm/profile.py and teste/swarm/correction.py route_message): both
iterate over the tool calls of the latest message setting a
memory-update flag (an UpdateMemory call whose update_type equals the
memory kind of the agent) and a transfer flag (a call named after the
handoff tool); reading update_type of an UpdateMemory call is unguarded in
the source, so a missing args dict or update_type key raises a KeyError,
modelled as Except.error.  The two source files differ only in the memory
kind and the handoff tool name, passed here as parameters. -/
def swarmFlags (memType transferName : String) :
    List ToolCall → Except String (Bool × Bool)
  | [] => Except.ok (false, false)
  | tc :: rest =>
    if tc.name == "UpdateMemory" then
      match tc.arg "update_type" with
      | none => Except.error "KeyError"
      | some u =>
        match swarmFlags memType transferName rest with
        | Except.error e => Except.error e
        | Except.ok (hm, ht) => Except.ok (hm || u == memType, ht)
    else if tc.name == transferName then
      match swarmFlags memType transferName rest with
      | Except.error e => Except.error e
      | Except.ok (hm, _) => Except.ok (hm, true)
    else
      swarmFlags memType transferName rest

/-- Swarm router core (route_message of teste/swarm/profile.py and
teste/swarm/correction.py): END with no tool calls; otherwise collect the
flags and, handling the memory update first when both are requested, go to
the memory node when the memory flag is set, to the handoff ToolNode when
only the transfer flag is set, and to END otherwise. -/
def swarmRoute (memType transferName memNode : String)
    (lastToolCalls : List ToolCall) : Except String String :=
  match lastToolCalls with
  | [] => Except.ok END_NODE
  | _ =>
    match swarmFlags memType transferName lastToolCalls with
    | Except.error e => Except.error e
    | Except.ok (hm, ht) =>
      if hm then Except.ok memNode
      else if ht then Except.ok "tools"
      else Except.ok END_NODE

/-- route_message of the profile agent (teste/swarm/profile.py). -/
def route_message_profile_agent : List ToolCall → Except String String :=
  swarmRoute "profile" "transfer_to_correction_agent" "update_memories"

/-- route_message of the correction agent (teste/swarm/correction.py). -/
def route_message_correction_agent : List ToolCall → Except String String :=
  swarmRoute "corrections" "transfer_to_profile" "update_corrections"

/-- Whether some tool call requests the given memory update. -/
def hasMemoryUpdateB (memType : String) (tcs : List ToolCall) : Bool :=
  tcs.any (fun tc => tc.name == "UpdateMemory"
    && tc.arg "update_type" == some memType)

/-- Whether some tool call requests the given handoff. -/
def hasTransferB (transferName : String) (tcs : List ToolCall) : Bool :=
  tcs.any (fun tc => !(tc.name == "UpdateMemory") && tc.name == transferName)

/-- Whether every UpdateMemory tool call carries an update_type argument
(the well-formedness the unguarded dict access of the source needs). -/
def updateMemoryArgsOk (tcs : List ToolCall) : Bool :=
  tcs.all (fun tc => !(tc.name == "UpdateMemory") || (tc.arg "update_type").isSome)

lemma swarmFlags_ok_eq (memType transferName : String) :
    ∀ (tcs : List ToolCall) (hm ht : Bool),
      swarmFlags memType transferName tcs = Except.ok (hm, ht) →
      hm = hasMemoryUpdateB memType tcs ∧ ht = hasTransferB transferName tcs := by
  intro tcs
  induction tcs with
  | nil =>
    intro hm ht h
    simp [swarmFlags] at h
    obtain ⟨h1, h2⟩ := h
    subst h1
    subst h2
    simp [hasMemoryUpdateB, hasTransferB]
  | cons tc rest ih =>
    intro hm ht h
    by_cases hname : tc.name == "UpdateMemory"
    · rw [swarmFlags, if_pos hname] at h
      cases harg : tc.arg "update_type" with
      | none => rw [harg] at h; exact absurd h (by simp)
      | some u =>
        rw [harg] at h
        cases hrec : swarmFlags memType transferName rest with
        | error e => rw [hrec] at h; exact absurd h (by simp)
        | ok p =>
          obtain ⟨hm0, ht0⟩ := p
          rw [hrec] at h
          simp only [Except.ok.injEq, Prod.mk.injEq] at h
          have hrel := ih hm0 ht0 hrec
          have ihm := h.1
          have iht := h.2
          constructor
          · rw [← ihm, hrel.1]
            simp [hasMemoryUpdateB, hname, harg, Bool.or_comm]
          · rw [← iht, hrel.2]
            simp [hasTransferB, hname]
    · by_cases htrans : tc.name == transferName
      · rw [swarmFlags, if_neg (by simp_all), if_pos htrans] at h
        cases hrec : swarmFlags memType transferName rest with
        | error e => rw [hrec] at h; exact absurd h (by simp)
        | ok p =>
          obtain ⟨hm0, ht0⟩ := p
          rw [hrec] at h
          simp only [Except.ok.injEq, Prod.mk.injEq] at h
          have hrel := ih hm0 ht0 hrec
          have ihm := h.1
          have iht := h.2
          constructor
          · rw [← ihm, hrel.1]
            simp [hasMemoryUpdateB, hname, htrans]
          · rw [← iht]
            simp [hasTransferB, hname, htrans]
      · rw [swarmFlags, if_neg (by simp_all), if_neg (by simp_all)] at h
        obtain ⟨ihm, iht⟩ := ih hm ht h
        constructor
        · rw [ihm]; simp [hasMemoryUpdateB, hname, htrans]
        · rw [iht]; simp [hasTransferB, hname, htrans]

lemma swarmFlags_total (memType transferName : String) :
    ∀ (tcs : List ToolCall), updateMemoryArgsOk tcs = true →
      swarmFlags memType transferName tcs
        = Except.ok (hasMemoryUpdateB memType tcs, hasTransferB transferName tcs) := by
  intro tcs
  induction tcs with
  | nil => intro _; simp [swarmFlags, hasMemoryUpdateB, hasTransferB]
  | cons tc rest ih =>
    intro hwf
    have hwf2 : updateMemoryArgsOk rest = true := by
      simp_all [updateMemoryArgsOk]
    have hrec := ih hwf2
    by_cases hname : tc.name == "UpdateMemory"
    · have hsome : (tc.arg "update_type").isSome := by
        have := hwf
        simp [updateMemoryArgsOk] at this
        rcases this.1 with hc | hc
        · exact absurd hc (by simp_all)
        · exact hc
      cases harg : tc.arg "update_type" with
      | none => rw [harg] at hsome; simp at hsome
      | some u =>
        rw [swarmFlags, if_pos hname, harg, hrec]
        simp [hasMemoryUpdateB, hasTransferB, hname, harg, Bool.or_comm]
    · by_cases htrans : tc.name == transferName
      · rw [swarmFlags, if_neg (by simp_all), if_pos htrans, hrec]
        simp [hasMemoryUpdateB, hasTransferB, hname, htrans]
      · rw [swarmFlags, if_neg (by simp_all), if_neg (by simp_all), hrec]
        simp [hasMemoryUpdateB, hasTransferB, hname, htrans]

/-- C6. In both swarm agents, whenever the latest assistant message carries
both a memory-persisting UpdateMemory call and a handoff call, the router
dispatches the memory-update node, not the handoff; and the handoff
ToolNode is only ever selected when no memory update is pending in the
message, so a handoff never runs while a requested memory write is
pending. -/
theorem memory_dispatched_before_handoff (tcs : List ToolCall) :
    (updateMemoryArgsOk tcs = true →
      hasMemoryUpdateB "profile" tcs = true →
      hasTransferB "transfer_to_correction_agent" tcs = true →
      route_message_profile_agent tcs = Except.ok "update_memories")
    ∧ (route_message_profile_agent tcs = Except.ok "tools" →
        hasMemoryUpdateB "profile" tcs = false)
    ∧ (updateMemoryArgsOk tcs = true →
      hasMemoryUpdateB "corrections" tcs = true →
      hasTransferB "transfer_to_profile" tcs = true →
      route_message_correction_agent tcs = Except.ok "update_corrections")
    ∧ (route_message_correction_agent tcs = Except.ok "tools" →
        hasMemoryUpdateB "corrections" tcs = false) := by
  have main : ∀ memType transferName memNode : String,
      (updateMemoryArgsOk tcs = true →
        hasMemoryUpdateB memType tcs = true →
        hasTransferB transferName tcs = true →
        swarmRoute memType transferName memNode tcs = Except.ok memNode)
      ∧ (memNode ≠ "tools" →
          swarmRoute memType transferName memNode tcs = Except.ok "tools" →
          hasMemoryUpdateB memType tcs = false) := by
    intro memType transferName memNode
    constructor
    · intro hwf hmem htr
      cases tcs with
      | nil => simp [hasMemoryUpdateB] at hmem
      | cons tc rest =>
        simp only [swarmRoute]
        rw [swarmFlags_total memType transferName _ hwf, hmem]
        simp
    · intro hne hroute
      cases tcs with
      | nil => simp [hasMemoryUpdateB]
      | cons tc rest =>
        simp only [swarmRoute] at hroute
        cases hflags : swarmFlags memType transferName (tc :: rest) with
        | error e => rw [hflags] at hroute; exact absurd hroute (by simp)
        | ok p =>
          obtain ⟨hm, ht⟩ := p
          rw [hflags] at hroute
          have heq := swarmFlags_ok_eq memType transferName (tc :: rest) hm ht hflags
          by_cases hc : hm = true
          · rw [hc] at hroute
            simp at hroute
            exact absurd hroute hne
          · have hf : hm = false := by simpa using hc
            rw [← heq.1, hf]
  exact ⟨(main "profile" "transfer_to_correction_agent" "update_memories").1,
    (main "profile" "transfer_to_correction_agent" "update_memories").2 (by decide),
    (main "corrections" "transfer_to_profile" "update_corrections").1,
    (main "corrections" "transfer_to_profile" "update_corrections").2 (by decide)⟩

/-- C6 witness: a message carrying both a profile memory update and a
transfer_to_correction_agent handoff is routed to the memory node. -/
theorem memory_dispatched_before_handoff_witness :
    updateMemoryArgsOk
        [⟨"UpdateMemory", some [("update_type", "profile")], "a"⟩,
         ⟨"transfer_to_correction_agent", some [("reason", "errors")], "b"⟩] = true
    ∧ hasMemoryUpdateB "profile"
        [⟨"UpdateMemory", some [("update_type", "profile")], "a"⟩,
         ⟨"transfer_to_correction_agent", some [("reason", "errors")], "b"⟩] = true
    ∧ hasTransferB "transfer_to_correction_agent"
        [⟨"UpdateMemory", some [("update_type", "profile")], "a"⟩,
         ⟨"transfer_to_correction_agent", some [("reason", "errors")], "b"⟩] = true
    ∧ route_message_profile_agent
        [⟨"UpdateMemory", some [("update_type", "profile")], "a"⟩,
         ⟨"transfer_to_correction_agent", some [("reason", "errors")], "b"⟩]
        = Except.ok "update_memories" :=
  ⟨by decide, by decide, by decide,
    (memory_dispatched_before_handoff
        [⟨"UpdateMemory", some [("update_type", "profile")], "a"⟩,
         ⟨"transfer_to_correction_agent", some [("reason", "errors")], "b"⟩]).1
      (by decide) (by decide) (by decide)⟩

/-- tool_calls[0]["id"] if tool_calls and len(tool_calls) > 0 else
"unknown" — the tool-call id recovery used by the nodes of
src/agent/graph.py. -/
def firstToolCallId (toolCalls : List ToolCall) : String :=
  match toolCalls with
  | tc :: _ => tc.id
  | [] => "unknown"

/-- web_search_api (src/agent/graph.py): the whole body — search calls,
formatting, extraction and store writes — sits inside a try/except, whose
outcome is the tryBlock parameter carrying the tool-message content on
success.  On either path the node returns a single tool message attached
to the first pending tool-call id and never lets the exception escape. -/
def web_search_api_node (tryBlock : Except String String)
    (lastToolCalls : List ToolCall) : Except String (List Message) :=
  match tryBlock with
  | Except.ok content =>
    Except.ok [Message.tool content none (firstToolCallId lastToolCalls)]
  | Except.error e =>
    Except.ok [Message.tool ("Error during web search: " ++ e) none
      (firstToolCallId lastToolCalls)]

/-- update_profile (src/agent/graph.py): invokes the Trustcall profile
extractor and writes its responses to the store with NO try/except, so an
extraction failure propagates out of the node; on success it returns the
verification tool message.  extraction carries the (doc id, document)
pairs the extractor produced. -/
def update_profile_node_graph (extraction : Except String (List (String × String)))
    (lastToolCalls : List ToolCall) :
    Except String (List (String × String) × List Message) :=
  match extraction with
  | Except.error e => Except.error e
  | Except.ok writes =>
    Except.ok (writes,
      [Message.tool "Updated profile information" none (firstToolCallId lastToolCalls)])

/-- update_profile (src/agent/agent_graph.py): profile extraction and the
Redis write sit inside a try/except that converts a failure into an
"Error updating profile: ..." tool message; both branches then read
tool_calls[0]["id"] unguarded, so an empty tool-call list raises an
IndexError on either path. -/
def update_profile_node_agent_graph (extraction : Except String Unit)
    (lastToolCalls : List ToolCall) : Except String (List Message) :=
  match lastToolCalls with
  | [] => Except.error "IndexError"
  | tc :: _ =>
    match extraction with
    | Except.ok _ => Except.ok [Message.tool "Updated user profile" none tc.id]
    | Except.error e =>
      Except.ok [Message.tool ("Error updating profile: " ++ e) none tc.id]

/-- C7 counterexample: the update_profile node of src/agent/graph.py has no
per-node exception boundary, so a failing extraction propagates out of the
node instead of becoming a synthetic tool message — the claim that every
node converts its failures is false at this input. -/
theorem extractor_failure_propagates :
    update_profile_node_graph (Except.error "extraction failed")
      [⟨"UpdateMemory", some [("update_type", "profile")], "call1"⟩]
      = Except.error "extraction failed" := rfl

/-- C7 amended: the nodes that do install a per-node boundary contain
failures — web_search_api (src/agent/graph.py) turns any body failure into
an "Error during web search: ..." tool message on the first pending
tool-call id, and update_profile (src/agent/agent_graph.py) turns any
extraction failure into an "Error updating profile: ..." tool message —
while the memory extractor nodes of src/agent/graph.py (update_profile
shown) propagate extraction failures out of the node. -/
theorem node_error_containment (e : String) (lastToolCalls : List ToolCall)
    (tc : ToolCall) (rest : List ToolCall) :
    web_search_api_node (Except.error e) lastToolCalls
      = Except.ok [Message.tool ("Error during web search: " ++ e) none
          (firstToolCallId lastToolCalls)]
    ∧ update_profile_node_agent_graph (Except.error e) (tc :: rest)
      = Except.ok [Message.tool ("Error updating profile: " ++ e) none tc.id]
    ∧ update_profile_node_graph (Except.error e) lastToolCalls
      = Except.error e := ⟨rfl, rfl, rfl⟩

/-- Redis key for the agent memory of a user (src/agent/service.py,
get_memory_key). -/
def get_memory_key (userId : String) : String := "agent:memory:" ++ userId

/-- The Redis string keyspace reached through redis_client.set, modelled as
an association list.  SET stores value at key, replacing any previously
held value wholesale (the documented contract of the external store the
service relies on). -/
def redisSet (store : List (String × String)) (k v : String) :
    List (String × String) :=
  (k, v) :: store.filter (fun p => !(p.1 == k))

/-- redis_client.get: the value currently stored at the key, if any. -/
def redisGet (store : List (String × String)) (k : String) : Option String :=
  store.lookup k

/-- write_memory (src/agent/service.py): reflects on the chat history with
the Trustcall extractor (a capability port whose serialized output is the
extractorOutput parameter) and saves the updated profile JSON to Redis
under the user's fixed memory key with redis_client.set. -/
def write_memory (store : List (String × String)) (userId extractorOutput : String) :
    List (String × String) :=
  redisSet store (get_memory_key userId) extractorOutput

/-- get_user_memory (src/agent/service.py): reads the memory JSON stored
under the user's memory key. -/
def get_user_memory (store : List (String × String)) (userId : String) :
    Option String :=
  redisGet store (get_memory_key userId)

lemma countP_key_filter_ne (k : String) (store : List (String × String)) :
    (store.filter (fun p => !(p.1 == k))).countP (fun p => p.1 == k) = 0 := by
  induction store with
  | nil => simp
  | cons p rest ih =>
    by_cases h : p.1 == k
    · simp [List.filter, h, ih]
    · simp only [List.filter, h]
      simp only [Bool.not_false, List.countP_cons, h]
      simp [ih]

/-- C8. After any sequence of memory writes for a user, reading that
user's memory returns exactly the last value written, and the store holds
exactly one record under the user's memory key: a repeated write replaces
the record wholesale instead of appending a duplicate. -/
theorem memory_roundtrip_idempotent (store : List (String × String))
    (userId : String) (vs : List String) (v : String) :
    get_user_memory
        (List.foldl (fun s w => write_memory s userId w) store (vs ++ [v])) userId
      = some v
    ∧ (List.foldl (fun s w => write_memory s userId w) store (vs ++ [v])).countP
        (fun p => p.1 == get_memory_key userId) = 1 := by
  rw [List.foldl_append]
  constructor
  · simp [get_user_memory, write_memory, redisSet, redisGet]
  · simp only [List.foldl_cons, List.foldl_nil, write_memory, redisSet,
      List.countP_cons]
    rw [countP_key_filter_ne]
    simp

/-- The apostrophe character, used inside message texts. -/
def apos : String := String.singleton (Char.ofNat 39)

/-- The text content of a message. -/
def Message.contentOf : Message → String
  | Message.human c => c
  | Message.ai c _ => c
  | Message.tool c _ _ => c
  | Message.system c => c

/-- conversational_agent (src/agent/agent_graph.py): the primary node of
the reduced agent graph.  Both Redis reads (profile, recent conversations)
are guarded by an `if redis_client` check and a try/except that logs and
swallows any failure, leaving the profile at None and the conversations
string empty; the system message is then formatted (fmt, the
MODEL_SYSTEM_MESSAGE template application) with textual fallbacks and the
model port is invoked on the system message plus the chat history,
returning one response message.  profileRead is the outcome of the
profile get+parse, convsRead the outcome of assembling the recent
conversations string. -/
def conversational_agent (fmt : String → String → String) (redisPresent : Bool)
    (profileRead : Except String (Option String))
    (convsRead : Except String String)
    (complete : List Message → Message) (history : List Message) : List Message :=
  let userProfile : Option String :=
    if redisPresent then
      match profileRead with
      | Except.ok p => p
      | Except.error _ => none
    else none
  let recentConversations : String :=
    if redisPresent then
      match convsRead with
      | Except.ok c => c
      | Except.error _ => ""
    else ""
  let systemMsg := fmt
    (match userProfile with
      | some p => p
      | none => "No profile information yet.")
    (if recentConversations == "" then "No previous conversations."
      else recentConversations)
  [complete (Message.system systemMsg :: history)]

/-- A parsed UserProfileMemory document (src/agent/models.py) as
call_model reads it back from Redis. -/
structure MemoryDoc where
  user_name : Option String
  user_location : Option String
  user_interests : List String
deriving DecidableEq

/-- call_model (src/agent/service.py): the primary node of the service
graph.  The Redis read of the user's memory is NOT guarded: a raising
redis_client.get propagates out of the node (modelled by memoryRead being
Except and threaded through).  With a memory document present the memory
text is formatted from its fields; otherwise the user's first name is
fetched from the database port.  Search context, when present, is appended
to the system message, the model port produces the response, and the node
returns the extended message list together with the answer text. -/
def call_model_service (memoryRead : Except String (Option MemoryDoc))
    (dbFirstName : String) (fmtMemory : String → String)
    (complete : List Message → Message) (messages : List Message)
    (context : List String) : Except String (List Message × String) :=
  match memoryRead with
  | Except.error e => Except.error e
  | Except.ok memory =>
    let formattedMemory :=
      match memory with
      | some m =>
        "Name: " ++ m.user_name.getD "Unknown"
          ++ "\nLocation: " ++ m.user_location.getD "Unknown"
          ++ "\nInterests: " ++ String.intercalate ", " m.user_interests
      | none =>
        "No memory available yet. Only the user" ++ apos
          ++ "s name is known. The user" ++ apos ++ "s name is: "
          ++ dbFirstName ++ "."
    let baseMsg := fmtMemory formattedMemory
    let systemMsg :=
      if context ≠ [] then
        baseMsg ++ "\n\nHere" ++ apos
          ++ "s information I found that might help answer the question:\n"
          ++ String.intercalate "\n\n" context
      else baseMsg
    let response := complete (Message.system systemMsg :: messages)
    Except.ok (messages ++ [response], response.contentOf)

/-- C9 counterexample: a failing Redis memory read makes call_model
(src/agent/service.py) propagate the exception out of the primary node
instead of degrading to empty memory, so the claim that a memory-read
failure never aborts the turn is false at this input. -/
theorem call_model_memory_read_propagates :
    call_model_service (Except.error "ConnectionError") "Ana" (fun m => m)
      (fun _ => Message.ai "hello" []) [] []
      = Except.error "ConnectionError" := rfl

/-- C9 amended: conversational_agent (src/agent/agent_graph.py) treats
memory as empty both when the store is unavailable and when either memory
read raises, producing the same single assistant reply as the no-memory
run; call_model (src/agent/service.py), by contrast, propagates a failing
memory read to its caller. -/
theorem memory_read_degradation (fmt : String → String → String) (e1 e2 em : String)
    (complete : List Message → Message) (history : List Message)
    (pr : Except String (Option String)) (cv : Except String String)
    (dbFirstName : String) (fmtMemory : String → String)
    (complete2 : List Message → Message) (messages : List Message)
    (context : List String) :
    conversational_agent fmt true (Except.error e1) (Except.error e2)
        complete history
      = [complete (Message.system
          (fmt "No profile information yet." "No previous conversations.")
          :: history)]
    ∧ conversational_agent fmt false pr cv complete history
      = [complete (Message.system
          (fmt "No profile information yet." "No previous conversations.")
          :: history)]
    ∧ call_model_service (Except.error em) dbFirstName fmtMemory complete2
        messages context = Except.error em := ⟨rfl, rfl, rfl⟩

/-- Whether pat occurs as a contiguous subsequence of s (the Python `in`
test on strings, used on LanguageTool rule ids). -/
def containsSeq (pat : List Char) : List Char → Bool
  | [] => pat.isEmpty
  | c :: cs => pat.isPrefixOf (c :: cs) || containsSeq pat cs

/-- Python str.replace(old, new, 1): replace the first occurrence only. -/
def listReplaceFirst (s pat rep : List Char) : List Char :=
  match s with
  | [] => if pat.isEmpty then rep else []
  | c :: cs =>
    if pat.isPrefixOf (c :: cs) then rep ++ (c :: cs).drop pat.length
    else c :: listReplaceFirst cs pat rep

/-- Python str.replace(old, new, 1) lifted to String. -/
def replaceFirst (s pat rep : String) : String :=
  String.mk (listReplaceFirst s.toList pat.toList rep.toList)

/-- Python slice text[offset : offset + length]. -/
def pySlice (s : String) (off len : Nat) : String :=
  String.mk ((s.toList.drop off).take len)

/-- Categories relevant for spoken English
(src/agent/grammar.py, process_languagetool_results). -/
def spoken_categories : List String :=
  ["GRAMMAR", "TYPOS", "CONFUSED_WORDS", "COLLOCATIONS",
   "REDUNDANCY", "SEMANTICS", "STYLE", "GENDER_NEUTRALITY"]

/-- Rule-id fragments ignored for spoken English
(src/agent/grammar.py, process_languagetool_results). -/
def ignore_rules : List String :=
  ["PUNCTUATION", "TYPOGRAPHY", "WHITESPACE", "COMMA", "PERIOD",
   "UPPERCASE_SENTENCE_START", "EN_QUOTES", "DASH_RULE"]

/-- One match returned by the LanguageTool HTTP API, with the fields
src/agent/grammar.py reads: rule id and category id, the message, the
context fragment with the offset and length of the problem text, and the
replacement values (already projected from the replacement dicts). -/
structure LTMatch where
  ruleId : String
  categoryId : String
  message : String
  contextText : String
  contextOffset : Nat
  contextLength : Nat
  replacements : List String
deriving DecidableEq

/-- Whether a match is skipped for spoken English: some ignored fragment
occurs in its rule id, or its category is not a spoken category. -/
def ltRuleSkipped (m : LTMatch) : Bool :=
  ignore_rules.any (fun w => containsSeq w.toList m.ruleId.toList)
    || !(spoken_categories.contains m.categoryId)

/-- The user-facing issue line built for one LanguageTool match:
message, the problem text in quotes, and up to three suggestions. -/
def ltIssueLine (m : LTMatch) : String :=
  let problem :=
    if m.contextText ≠ "" then pySlice m.contextText m.contextOffset m.contextLength
    else ""
  let reps := m.replacements.take 3
  let suggestion :=
    if reps ≠ [] then " -> " ++ String.intercalate ", " reps else ""
  m.message ++ ": " ++ apos ++ problem ++ apos ++ suggestion

/-- process_languagetool_results (src/agent/grammar.py): with
focus_on_spoken set, matches whose rule id contains an ignored fragment or
whose category is not spoken are dropped; the rest become issue lines. -/
def process_languagetool_results (ms : List LTMatch)
    (focusOnSpoken : Bool) : List String :=
  (ms.filter (fun m => !(focusOnSpoken && ltRuleSkipped m))).map ltIssueLine

/-- Applying one LanguageTool match to the running corrected text
(src/agent/grammar.py, check_grammar): only matches with replacements, a
context fragment and a positive length are applied, replacing the first
occurrence of the problem text with the first replacement value. -/
def applyLtCorrection (acc : String) (m : LTMatch) : String :=
  if m.replacements ≠ [] then
    if m.contextText ≠ "" ∧ 0 < m.contextLength then
      let problem := pySlice m.contextText m.contextOffset m.contextLength
      let suggestion := m.replacements.headD ""
      if problem ≠ "" ∧ suggestion ≠ "" then replaceFirst acc problem suggestion
      else acc
    else acc
  else acc

/-- The external capabilities check_grammar (src/agent/grammar.py) calls:
langdetect (detectLanguage), PySpellChecker
(pyspell = check_spelling_with_pyspellchecker, which the checker calls with
its default English language), TextBlob word segmentation (blobWords), the
per-word TextBlob chain of isalpha/length/vocab/spellcheck-confidence
producing a high-confidence suggestion (blobSuggest), whether the spaCy
model loaded (nlpLoaded), the LanguageTool API (langtool, taking the text
and the language code), and the regex word-boundary substitution
re.sub(boundary(orig), suggestion, s) (wordSub s orig suggestion). -/
structure GrammarPorts where
  detectLanguage : String → String
  pyspell : String → List (String × String)
  blobWords : String → List String
  blobSuggest : String → Option String
  nlpLoaded : Bool
  langtool : String → String → List LTMatch
  wordSub : String → String → String → String

/-- check_grammar (src/agent/grammar.py): empty text yields no issues and
no suggestion; detected non-English text yields exactly the language
notice and no suggestion; English or unknown text collects PySpellChecker
issues, TextBlob issues for words not already flagged, and filtered
LanguageTool issues, and only when the issue list is non-empty builds a
corrected text by applying the spelling substitutions and the LanguageTool
first-occurrence replacements to the original text. -/
def check_grammar (P : GrammarPorts) (text : String) :
    List String × Option String :=
  if text = "" then ([], none)
  else
    let lang := P.detectLanguage text
    let languagetoolLang := if lang = "en" then "en-US" else lang
    if ¬(lang = "en" ∨ lang = "unknown") then
      (["Non-English text detected (language: " ++ lang ++ ")"], none)
    else
      let pyspellCorrections := P.pyspell text
      let pyIssues := pyspellCorrections.map (fun c =>
        "Possible vocabulary error: " ++ apos ++ c.1 ++ apos
          ++ " -> " ++ apos ++ c.2 ++ apos)
      let misspelledWords :=
        if P.nlpLoaded then
          (P.blobWords text).filterMap (fun w =>
            if pyspellCorrections.any (fun m => w.toLower == m.1.toLower) then none
            else (P.blobSuggest w).map (fun s => (w, s)))
        else []
      let blobIssues := misspelledWords.map (fun c =>
        "Possible vocabulary error: " ++ apos ++ c.1 ++ apos
          ++ " -> " ++ apos ++ c.2 ++ apos)
      let ltMatches := P.langtool text languagetoolLang
      let ltIssues := process_languagetool_results ltMatches true
      let issues := pyIssues ++ blobIssues ++ ltIssues
      if issues ≠ [] then
        let c1 := pyspellCorrections.foldl (fun acc c => P.wordSub acc c.1 c.2) text
        let c2 := misspelledWords.foldl (fun acc c => P.wordSub acc c.1 c.2) c1
        let c3 := ltMatches.foldl applyLtCorrection c2
        (issues, some c3)
      else (issues, none)

lemma issue_pair_shape (i : List String) (x : String) :
    (if i ≠ [] then (i, some x) else (i, (none : Option String))).2 ≠ none →
    (if i ≠ [] then (i, some x) else (i, (none : Option String))).1 ≠ [] := by
  by_cases h : i = [] <;> simp [h]

/-- C10. check_grammar returns a correction suggestion only when its issue
list is non-empty; the empty string yields no issues and no suggestion;
and text detected as neither English nor unknown yields exactly one
non-English notice and no suggestion. -/
theorem check_grammar_suggestion_iff_issues (P : GrammarPorts) (text : String) :
    ((check_grammar P text).2 ≠ none → (check_grammar P text).1 ≠ [])
    ∧ check_grammar P "" = ([], none)
    ∧ (text ≠ "" → P.detectLanguage text ≠ "en" →
        P.detectLanguage text ≠ "unknown" →
        check_grammar P text
          = (["Non-English text detected (language: "
                ++ P.detectLanguage text ++ ")"], none)) := by
  refine ⟨?_, by simp [check_grammar], fun h1 h2 h3 => ?_⟩
  · intro hne
    by_cases ht : text = ""
    · subst ht; simp [check_grammar] at hne
    · simp only [check_grammar, if_neg ht] at hne ⊢
      by_cases hl : ¬(P.detectLanguage text = "en" ∨ P.detectLanguage text = "unknown")
      · simp only [if_pos hl] at hne
        exact absurd rfl hne
      · simp only [if_neg hl] at hne ⊢
        exact issue_pair_shape _ _ hne
  · simp [check_grammar, h1, h2, h3]

/-- Concrete grammar ports for the witness: language detected as Spanish,
no spellcheck or LanguageTool findings. -/
def portsNonEnglish : GrammarPorts :=
  ⟨fun _ => "es", fun _ => [], fun _ => [], fun _ => none, true,
    fun _ _ => [], fun s _ _ => s⟩

/-- Concrete grammar ports for the witness: English text with one
PySpellChecker finding. -/
def portsMisspelled : GrammarPorts :=
  ⟨fun _ => "en", fun _ => [("helo", "hello")], fun _ => [], fun _ => none,
    false, fun _ _ => [], fun s _ _ => s⟩

/-- C10 witness: with a spelling finding the suggestion is present and the
issue list non-empty; Spanish-detected text yields exactly the notice. -/
theorem check_grammar_suggestion_iff_issues_witness :
    ((check_grammar portsMisspelled "helo").2 ≠ none
      ∧ (check_grammar portsMisspelled "helo").1 ≠ [])
    ∧ (("hola" : String) ≠ "" ∧ portsNonEnglish.detectLanguage "hola" ≠ "en"
        ∧ portsNonEnglish.detectLanguage "hola" ≠ "unknown")
    ∧ check_grammar portsNonEnglish "hola"
        = (["Non-English text detected (language: es)"], none) :=
  ⟨⟨by decide,
      (check_grammar_suggestion_iff_issues portsMisspelled "helo").1 (by decide)⟩,
    ⟨by decide, by decide, by decide⟩,
    (check_grammar_suggestion_iff_issues portsNonEnglish "hola").2.2
      (by decide) (by decide) (by decide)⟩
